import Mathlib

/-!
Shallow embedding of the Tickly Pomodoro timer background worker
(src/background.js): settings sanitization, the timer state machine, the
elapsed-time accounting shared by the tick loop, pause and state reload,
and the session-completion logic, together with proofs of the testable
properties stated in the specification. Timestamps are integers (Date.now
milliseconds); durations and time remaining are rationals, since JavaScript
numbers are not forced to integers by the sanitizer. External side effects
(notifications, sounds, badge, storage writes, alarm scheduling) do not feed
back into the timer state and are not modelled; the setInterval handle is
modelled by a boolean flag.
-/

namespace Tickly

/-- Session types (SESSION_TYPES in background.js). -/
inductive Session where
  | work
  | shortBreak
  | longBreak
  deriving DecidableEq, Repr

/-- A JavaScript number: non-finite (NaN, positive or negative infinity) or a
finite value, modelled as a rational. -/
inductive JSNum where
  | nan
  | inf
  | ninf
  | fin (q : ℚ)
  deriving DecidableEq, Repr

/-- A JavaScript value as it can appear in a raw settings field. The str and
obj constructors carry their ToNumber image as data: for a string this is the
JavaScript numeric parse (NaN when not numeric), for an object it follows the
JavaScript conversion rules (NaN for a plain object). -/
inductive JSV where
  | jsUndefined
  | jsNull
  | bool (b : Bool)
  | num (n : JSNum)
  | str (s : String) (numVal : JSNum)
  | obj (numVal : JSNum)
  deriving DecidableEq, Repr

/-- The Number conversion applied to a JavaScript value. -/
def JSV.toNumber : JSV → JSNum
  | .jsUndefined => .nan
  | .jsNull => .fin 0
  | .bool b => .fin (if b then 1 else 0)
  | .num n => n
  | .str _ n => n
  | .obj n => n

/-- JavaScript truthiness, the Boolean(v) conversion. -/
def JSV.truthy : JSV → Bool
  | .jsUndefined => false
  | .jsNull => false
  | .bool b => b
  | .num .nan => false
  | .num (.fin q) => q != 0
  | .num _ => true
  | .str s _ => s != ""
  | .obj _ => true

/-- The strict test v !== false: false exactly for the boolean literal false. -/
def JSV.strictNeqFalse : JSV → Bool
  | .bool false => false
  | _ => true

/-- Raw durations object as stored or submitted: every field may be absent. -/
structure RawDurations where
  work : Option JSV
  shortBreak : Option JSV
  longBreak : Option JSV
  deriving DecidableEq, Repr

/-- Raw notifications object: every field may be absent. -/
structure RawNotifications where
  desktop : Option JSV
  sound : Option JSV
  soundType : Option JSV
  deriving DecidableEq, Repr

/-- Raw ticking-sound object: the field may be absent. -/
structure RawTickingSound where
  enabled : Option JSV
  deriving DecidableEq, Repr

/-- Raw settings object: every field may be absent, and a nested object that
is absent, null or a primitive reads as an object with no fields. -/
structure RawSettings where
  durations : Option RawDurations
  longBreakInterval : Option JSV
  autoStartBreaks : Option JSV
  autoStartWork : Option JSV
  notifications : Option RawNotifications
  tickingSound : Option RawTickingSound
  deriving DecidableEq, Repr

/-- Sanitized durations, in seconds. -/
structure Durations where
  work : ℚ
  shortBreak : ℚ
  longBreak : ℚ
  deriving DecidableEq, Repr

/-- Sanitized notification settings. -/
structure Notifications where
  desktop : Bool
  sound : Bool
  soundType : String
  deriving DecidableEq, Repr

/-- Sanitized ticking-sound settings. -/
structure TickingSound where
  enabled : Bool
  deriving DecidableEq, Repr

/-- Fully sanitized settings. The long-break interval is an integer because
sanitizeSettings applies Math.floor to it (and only to it). -/
structure Settings where
  durations : Durations
  longBreakInterval : ℤ
  autoStartBreaks : Bool
  autoStartWork : Bool
  notifications : Notifications
  tickingSound : TickingSound
  deriving DecidableEq, Repr

/-- DEFAULT_SETTINGS from background.js. -/
def DEFAULT_SETTINGS : Settings :=
  { durations := { work := 25 * 60, shortBreak := 5 * 60, longBreak := 15 * 60 },
    longBreakInterval := 4,
    autoStartBreaks := false,
    autoStartWork := false,
    notifications := { desktop := true, sound := true, soundType := "beep" },
    tickingSound := { enabled := false } }

/-- Read an optionally-chained field: an absent object or an absent field
reads as undefined. -/
def chainField (o : Option α) (f : α → Option JSV) : JSV :=
  match o with
  | none => .jsUndefined
  | some x => (f x).getD .jsUndefined

/-- sanitizeNumber from background.js. The min and max arguments are finite
numeric literals at every call site, so they are rationals here; a non-finite
input, or a finite input below min or above max, yields the fallback. An
in-range finite input is returned unchanged (in particular it is not floored
and not clamped). -/
def sanitizeNumber (value : JSNum) (fallback lo hi : ℚ) : ℚ :=
  match value with
  | .fin number =>
    if number < lo then fallback
    else if hi < number then fallback
    else number
  | _ => fallback

/-- The soundType arm of sanitizeSettings: keep the value when it is one of
the literal strings beep, chime or bell (the Array.includes test), otherwise
fall back to the default sound type. -/
def sanitizeSoundType (v : JSV) : String :=
  match v with
  | .str s _ =>
    if s = "beep" ∨ s = "chime" ∨ s = "bell" then s
    else DEFAULT_SETTINGS.notifications.soundType
  | _ => DEFAULT_SETTINGS.notifications.soundType

/-- sanitizeSettings from background.js. -/
def sanitizeSettings (rawSettings : RawSettings) : Settings :=
  { durations :=
      { work := sanitizeNumber (chainField rawSettings.durations (fun d => d.work)).toNumber
          DEFAULT_SETTINGS.durations.work 60 (60 * 60),
        shortBreak := sanitizeNumber (chainField rawSettings.durations (fun d => d.shortBreak)).toNumber
          DEFAULT_SETTINGS.durations.shortBreak 60 (30 * 60),
        longBreak := sanitizeNumber (chainField rawSettings.durations (fun d => d.longBreak)).toNumber
          DEFAULT_SETTINGS.durations.longBreak 60 (60 * 60) },
    longBreakInterval :=
      ⌊sanitizeNumber (rawSettings.longBreakInterval.getD .jsUndefined).toNumber
          (DEFAULT_SETTINGS.longBreakInterval : ℚ) 0 12⌋,
    autoStartBreaks := (rawSettings.autoStartBreaks.getD .jsUndefined).truthy,
    autoStartWork := (rawSettings.autoStartWork.getD .jsUndefined).truthy,
    notifications :=
      { desktop := (chainField rawSettings.notifications (fun n => n.desktop)).strictNeqFalse,
        sound := (chainField rawSettings.notifications (fun n => n.sound)).strictNeqFalse,
        soundType := sanitizeSoundType (chainField rawSettings.notifications (fun n => n.soundType)) },
    tickingSound := { enabled := (chainField rawSettings.tickingSound (fun t => t.enabled)).truthy } }

/-- Re-embed a sanitized Settings value as a raw settings object, exactly the
way the JavaScript object built by sanitizeSettings reads when fed back in:
numbers read as finite numbers, booleans as booleans, and the soundType string
as a string whose numeric parse is NaN (none of beep, chime, bell is numeric). -/
def Settings.toRaw (S : Settings) : RawSettings :=
  { durations := some
      { work := some (.num (.fin S.durations.work)),
        shortBreak := some (.num (.fin S.durations.shortBreak)),
        longBreak := some (.num (.fin S.durations.longBreak)) },
    longBreakInterval := some (.num (.fin (S.longBreakInterval : ℚ))),
    autoStartBreaks := some (.bool S.autoStartBreaks),
    autoStartWork := some (.bool S.autoStartWork),
    notifications := some
      { desktop := some (.bool S.notifications.desktop),
        sound := some (.bool S.notifications.sound),
        soundType := some (.str S.notifications.soundType .nan) },
    tickingSound := some { enabled := some (.bool S.tickingSound.enabled) } }

/-- mergeSettings from background.js: spread savedSettings over
DEFAULT_SETTINGS field by field, with the nested durations, notifications and
tickingSound objects merged over the corresponding default objects, overlay
legacy durations on top when they are present, then sanitize. A field absent
from the saved object keeps the default value, exactly as the object spread
does; a field present with value undefined overrides it (and then falls back
during sanitization). -/
def mergeSettings (savedSettings : Option RawSettings) (legacyDurations : Option RawDurations) : Settings :=
  let sd : RawDurations := (savedSettings.bind (fun s => s.durations)).getD ⟨none, none, none⟩
  let sn : RawNotifications := (savedSettings.bind (fun s => s.notifications)).getD ⟨none, none, none⟩
  let st : RawTickingSound := (savedSettings.bind (fun s => s.tickingSound)).getD ⟨none⟩
  let ld : RawDurations := legacyDurations.getD ⟨none, none, none⟩
  sanitizeSettings
    { durations := some
        { work := ld.work <|> sd.work <|> some (.num (.fin DEFAULT_SETTINGS.durations.work)),
          shortBreak := ld.shortBreak <|> sd.shortBreak <|> some (.num (.fin DEFAULT_SETTINGS.durations.shortBreak)),
          longBreak := ld.longBreak <|> sd.longBreak <|> some (.num (.fin DEFAULT_SETTINGS.durations.longBreak)) },
      longBreakInterval := (savedSettings.bind (fun s => s.longBreakInterval)) <|>
        some (.num (.fin (DEFAULT_SETTINGS.longBreakInterval : ℚ))),
      autoStartBreaks := (savedSettings.bind (fun s => s.autoStartBreaks)) <|>
        some (.bool DEFAULT_SETTINGS.autoStartBreaks),
      autoStartWork := (savedSettings.bind (fun s => s.autoStartWork)) <|>
        some (.bool DEFAULT_SETTINGS.autoStartWork),
      notifications := some
        { desktop := sn.desktop <|> some (.bool DEFAULT_SETTINGS.notifications.desktop),
          sound := sn.sound <|> some (.bool DEFAULT_SETTINGS.notifications.sound),
          soundType := sn.soundType <|> some (.str DEFAULT_SETTINGS.notifications.soundType .nan) },
      tickingSound := some { enabled := st.enabled <|> some (.bool DEFAULT_SETTINGS.tickingSound.enabled) } }

/-- Bounds and shape facts that hold for every output of sanitizeSettings and
make sanitization a fixed point on its own image. -/
def SaneSettings (S : Settings) : Prop :=
  60 ≤ S.durations.work ∧ S.durations.work ≤ 3600 ∧
  60 ≤ S.durations.shortBreak ∧ S.durations.shortBreak ≤ 1800 ∧
  60 ≤ S.durations.longBreak ∧ S.durations.longBreak ≤ 3600 ∧
  0 ≤ S.longBreakInterval ∧ S.longBreakInterval ≤ 12 ∧
  (S.notifications.soundType = "beep" ∨ S.notifications.soundType = "chime" ∨
    S.notifications.soundType = "bell")

/-- SessionHistory: calendar-day key to completed-work-session count. -/
abbrev SessionHistory := String → ℕ

/-- The canonical timer state held by the background worker. Every numeric
field of a state the Authority itself wrote is a finite number, so fields are
typed; tickInterval models whether a setInterval handle is installed. -/
structure TimerState where
  isRunning : Bool
  isPaused : Bool
  currentSession : Session
  timeRemaining : ℚ
  cycleCount : ℕ
  startTime : Option ℤ
  pausedAt : Option ℤ
  totalPausedTime : ℤ
  initialDuration : ℚ
  tickInterval : Bool
  deriving DecidableEq, Repr

/-- The module-level initial timerState literal in background.js. -/
def initialTimerState : TimerState :=
  { isRunning := false, isPaused := false, currentSession := .work,
    timeRemaining := DEFAULT_SETTINGS.durations.work, cycleCount := 0,
    startTime := none, pausedAt := none, totalPausedTime := 0,
    initialDuration := DEFAULT_SETTINGS.durations.work, tickInterval := false }

/-- getSessionDuration from background.js; the default arm returns the work
duration, but the session enum is total so it is unreachable here. -/
def getSessionDuration (settings : Settings) : Session → ℚ
  | .work => settings.durations.work
  | .shortBreak => settings.durations.shortBreak
  | .longBreak => settings.durations.longBreak

/-- JavaScript truthiness of a nullable timestamp: null and 0 are falsy. -/
def optIntTruthy : Option ℤ → Bool
  | none => false
  | some v => v != 0

/-- The elapsed-time recomputation that appears verbatim in the tick callback,
in pauseTimer, in loadState and in the getState handler of background.js:
Math.max(0, initialDuration - Math.floor((now - startTime - totalPausedTime) / 1000)). -/
def computeRemaining (initialDuration : ℚ) (startTime totalPausedTime now : ℤ) : ℚ :=
  max 0 (initialDuration - (⌊((now - startTime - totalPausedTime : ℤ) : ℚ) / 1000⌋ : ℤ))

/-- updateSessionHistory from background.js: increment the count stored under
today's key, a missing key counting as 0. -/
def updateSessionHistory (today : String) (history : SessionHistory) : SessionHistory :=
  fun d => if d = today then history d + 1 else history d

/-- handleTimerComplete from background.js. Notification and sound dispatch
are external side effects with no bearing on state and are not modelled; alarm
scheduling and clearing are likewise external. startTick, invoked on
autostart, is modelled by setting the tickInterval flag; without autostart the
interval handle is left as it was (the source clears only the alarm there). -/
def handleTimerComplete (settings : Settings) (s : TimerState) (now : ℤ)
    (today : String) (history : SessionHistory) : TimerState × SessionHistory :=
  let history1 := if s.currentSession = .work then updateSessionHistory today history else history
  let cycleCount1 := if s.currentSession = .work then s.cycleCount + 1 else s.cycleCount
  let nextSession : Session :=
    if s.currentSession = .work then
      if settings.longBreakInterval > 0 ∧ (cycleCount1 : ℤ) % settings.longBreakInterval = 0 then
        .longBreak
      else .shortBreak
    else .work
  let nextDuration := getSessionDuration settings nextSession
  let shouldAutostart := if nextSession = .work then settings.autoStartWork else settings.autoStartBreaks
  ({ s with
      currentSession := nextSession,
      timeRemaining := nextDuration,
      cycleCount := cycleCount1,
      isPaused := false,
      totalPausedTime := 0,
      pausedAt := none,
      initialDuration := nextDuration,
      startTime := if shouldAutostart then some now else none,
      isRunning := shouldAutostart,
      tickInterval := if shouldAutostart then true else s.tickInterval },
    history1)

/-- startTimer from background.js. The fresh branch reloads settings, passed
here as the settings argument; scheduleEndAlarm is external and startTick is
modelled by the tickInterval flag. In the resume branch Date.now() minus
pausedAt coerces a null pausedAt to 0, hence getD 0. -/
def startTimer (settings : Settings) (s : TimerState) (now : ℤ) : TimerState :=
  if s.isRunning ∧ ¬s.isPaused then s
  else if s.isPaused then
    { s with
        totalPausedTime := s.totalPausedTime + (now - s.pausedAt.getD 0),
        isPaused := false,
        pausedAt := none,
        tickInterval := true }
  else
    let sessionDuration := getSessionDuration settings s.currentSession
    { s with
        isRunning := true,
        startTime := some now,
        totalPausedTime := 0,
        timeRemaining := sessionDuration,
        initialDuration := sessionDuration,
        tickInterval := true }

/-- pauseTimer from background.js. JavaScript truthiness guards the
recomputation: a null or zero startTime, or a zero initialDuration, skips it.
The tick interval is cleared and the end alarm (external) is cancelled. -/
def pauseTimer (s : TimerState) (now : ℤ) : TimerState :=
  if ¬s.isRunning ∨ s.isPaused then s
  else
    let s1 :=
      if optIntTruthy s.startTime ∧ s.initialDuration ≠ 0 then
        { s with timeRemaining := computeRemaining s.initialDuration (s.startTime.getD 0) s.totalPausedTime now }
      else s
    { s1 with isPaused := true, pausedAt := some now, tickInterval := false }

/-- resetTimer from background.js. The tick interval is not cleared here; the
next tick observes isRunning false and clears itself. The end alarm is
external. -/
def resetTimer (settings : Settings) (s : TimerState) : TimerState :=
  { s with
      isRunning := false, isPaused := false, startTime := none, pausedAt := none,
      totalPausedTime := 0, cycleCount := 0, currentSession := .work,
      timeRemaining := getSessionDuration settings .work,
      initialDuration := getSessionDuration settings .work }

/-- skipSession from background.js: an immediate invocation of
handleTimerComplete regardless of remaining time. -/
def skipSession (settings : Settings) (s : TimerState) (now : ℤ)
    (today : String) (history : SessionHistory) : TimerState × SessionHistory :=
  handleTimerComplete settings s now today history

/-- One firing of the setInterval callback installed by startTick in
background.js: recompute the remaining time from absolute timestamps, update
only on change, and hand over to handleTimerComplete when it reaches zero. -/
def tickStep (settings : Settings) (s : TimerState) (now : ℤ)
    (today : String) (history : SessionHistory) : TimerState × SessionHistory :=
  if ¬s.isRunning ∨ s.isPaused then ({ s with tickInterval := false }, history)
  else
    let calculatedRemaining := computeRemaining s.initialDuration (s.startTime.getD 0) s.totalPausedTime now
    if s.timeRemaining ≠ calculatedRemaining then
      if calculatedRemaining ≤ 0 then
        handleTimerComplete settings
          { s with timeRemaining := calculatedRemaining, tickInterval := false } now today history
      else ({ s with timeRemaining := calculatedRemaining }, history)
    else (s, history)

/-- loadState from background.js, applied to the in-memory state and an
optionally stored snapshot. In the typed model every stored numeric field is a
finite number, so the Number.isFinite fallback chain for initialDuration
collapses to its first branch and the totalPausedTime || 0 guard collapses to
totalPausedTime itself. -/
def loadState (settings : Settings) (current : TimerState) (stored : Option TimerState)
    (now : ℤ) (today : String) (history : SessionHistory) : TimerState × SessionHistory :=
  match stored with
  | some ts =>
    if ts.isRunning ∧ ¬ts.isPaused ∧ optIntTruthy ts.startTime then
      let initialDuration := ts.initialDuration
      let ts1 := { ts with
        initialDuration := initialDuration,
        timeRemaining := computeRemaining initialDuration (ts.startTime.getD 0) ts.totalPausedTime now }
      if ts1.timeRemaining ≤ 0 then handleTimerComplete settings ts1 now today history
      else (ts1, history)
    else if ¬ts.isRunning ∧ ¬ts.isPaused then
      let expectedDuration := getSessionDuration settings ts.currentSession
      if ts.timeRemaining ≠ expectedDuration then
        ({ ts with timeRemaining := expectedDuration, initialDuration := expectedDuration }, history)
      else (ts, history)
    else (ts, history)
  | none =>
    ({ current with
        currentSession := .work,
        timeRemaining := getSessionDuration settings .work,
        initialDuration := getSessionDuration settings .work }, history)

/-- The updateSettings message case of the background onMessage handler:
settings are merged from the raw request (with the request's own durations as
the legacy overlay) and the idle timer, if any, is refreshed to the new
duration of its session. A running or paused timer is left untouched. -/
def updateSettingsMsg (requestSettings : Option RawSettings) (s : TimerState) :
    Settings × TimerState :=
  let settings := mergeSettings requestSettings (requestSettings.bind (fun r => r.durations))
  if ¬s.isRunning ∧ ¬s.isPaused then
    let d := getSessionDuration settings s.currentSession
    (settings, { s with timeRemaining := d, initialDuration := d })
  else (settings, s)

/-- States of the Authority reachable from the initial timer state by its
operations: start, pause, reset, skip (the same function as completion),
tick, completion, settings update, and reload of a snapshot the Authority
itself wrote (or of an empty store). -/
inductive Reachable : TimerState → Prop where
  | init : Reachable initialTimerState
  | start (settings : Settings) (s : TimerState) (now : ℤ) :
      Reachable s → Reachable (startTimer settings s now)
  | pause (s : TimerState) (now : ℤ) :
      Reachable s → Reachable (pauseTimer s now)
  | reset (settings : Settings) (s : TimerState) :
      Reachable s → Reachable (resetTimer settings s)
  | complete (settings : Settings) (s : TimerState) (now : ℤ) (today : String)
      (history : SessionHistory) :
      Reachable s → Reachable (handleTimerComplete settings s now today history).1
  | tick (settings : Settings) (s : TimerState) (now : ℤ) (today : String)
      (history : SessionHistory) :
      Reachable s → Reachable (tickStep settings s now today history).1
  | update (requestSettings : Option RawSettings) (s : TimerState) :
      Reachable s → Reachable (updateSettingsMsg requestSettings s).2
  | loadNone (settings : Settings) (s : TimerState) (now : ℤ) (today : String)
      (history : SessionHistory) :
      Reachable s → Reachable (loadState settings s none now today history).1
  | loadSome (settings : Settings) (s stored : TimerState) (now : ℤ) (today : String)
      (history : SessionHistory) :
      Reachable s → Reachable stored →
      Reachable (loadState settings s (some stored) now today history).1

/-- An empty session history. -/
def sampleHistory : SessionHistory := fun _ => 0

/-- A concrete calendar-day key. -/
def dayKey : String := "Fri Oct 10 2025"

/-- A concrete running state: started at t = 1000 ms with the default work
duration and no paused time. -/
def runningSample : TimerState :=
  { initialTimerState with
      isRunning := true, startTime := some 1000, initialDuration := 1500, timeRemaining := 1500 }

/-- A raw settings object whose work duration is the in-range non-integer
90.5 seconds. -/
def rawWithHalfSecondWork : RawSettings :=
  { durations := some { work := some (.num (.fin (181 / 2))), shortBreak := none, longBreak := none },
    longBreakInterval := none, autoStartBreaks := none, autoStartWork := none,
    notifications := none, tickingSound := none }

/-- A raw settings object with every field absent. -/
def blankRaw : RawSettings :=
  { durations := none, longBreakInterval := none, autoStartBreaks := none,
    autoStartWork := none, notifications := none, tickingSound := none }

/-- Default settings with long-break substitution disabled. -/
def zeroIntervalSettings : Settings :=
  { DEFAULT_SETTINGS with longBreakInterval := 0 }

/-- The state reached from the initial state by n successive invocations of
the completion handler under default settings. Odd steps complete a work
session, even steps complete the following break. -/
def sessionAfter : ℕ → TimerState
  | 0 => initialTimerState
  | n + 1 => (handleTimerComplete DEFAULT_SETTINGS (sessionAfter n) 0 dayKey sampleHistory).1

/-- The state and history after the first completion of the initial work
session under default settings: the failing input for a duplicated
completion trigger. -/
def afterFirstCompletion : TimerState × SessionHistory :=
  handleTimerComplete DEFAULT_SETTINGS initialTimerState 0 dayKey sampleHistory

/-- Characterization of sanitizeNumber: an in-range finite value is kept
unchanged, everything else falls back. -/
theorem sanitizeNumber_char (v : JSNum) (fb lo hi : ℚ) :
    sanitizeNumber v fb lo hi =
      match v with
      | .fin q => if lo ≤ q ∧ q ≤ hi then q else fb
      | _ => fb := by
  cases v with
  | fin q =>
    show (if q < lo then fb else if hi < q then fb else q) = if lo ≤ q ∧ q ≤ hi then q else fb
    by_cases h1 : q < lo
    · rw [if_pos h1, if_neg (fun h => absurd h.1 (not_le.mpr h1))]
    · by_cases h2 : hi < q
      · rw [if_neg h1, if_pos h2, if_neg (fun h => absurd h.2 (not_le.mpr h2))]
      · rw [if_neg h1, if_neg h2, if_pos ⟨le_of_not_lt h1, le_of_not_lt h2⟩]
  | nan => rfl
  | inf => rfl
  | ninf => rfl

/-- The output of sanitizeNumber lies in the bounds whenever the fallback
does. -/
theorem sanitizeNumber_bounds (v : JSNum) (fb lo hi : ℚ) (h1 : lo ≤ fb) (h2 : fb ≤ hi) :
    lo ≤ sanitizeNumber v fb lo hi ∧ sanitizeNumber v fb lo hi ≤ hi := by
  cases v with
  | fin q =>
    show lo ≤ (if q < lo then fb else if hi < q then fb else q) ∧
      (if q < lo then fb else if hi < q then fb else q) ≤ hi
    by_cases ha : q < lo
    · rw [if_pos ha]
      exact ⟨h1, h2⟩
    · rw [if_neg ha]
      by_cases hb : hi < q
      · rw [if_pos hb]
        exact ⟨h1, h2⟩
      · rw [if_neg hb]
        exact ⟨le_of_not_lt ha, le_of_not_lt hb⟩
  | nan => exact ⟨h1, h2⟩
  | inf => exact ⟨h1, h2⟩
  | ninf => exact ⟨h1, h2⟩

/-- An in-range finite value passes through sanitizeNumber unchanged. -/
theorem sanitizeNumber_fixpoint (q fb lo hi : ℚ) (h1 : lo ≤ q) (h2 : q ≤ hi) :
    sanitizeNumber (.fin q) fb lo hi = q := by
  rw [sanitizeNumber_char]
  simp [h1, h2]

/-- Every output of sanitizeSettings satisfies the sanity bounds. -/
theorem sanitizeSettings_sane (r : RawSettings) : SaneSettings (sanitizeSettings r) := by
  have hw := sanitizeNumber_bounds (chainField r.durations (fun d => d.work)).toNumber
    DEFAULT_SETTINGS.durations.work 60 (60 * 60) (by norm_num [DEFAULT_SETTINGS]) (by norm_num [DEFAULT_SETTINGS])
  have hs := sanitizeNumber_bounds (chainField r.durations (fun d => d.shortBreak)).toNumber
    DEFAULT_SETTINGS.durations.shortBreak 60 (30 * 60) (by norm_num [DEFAULT_SETTINGS]) (by norm_num [DEFAULT_SETTINGS])
  have hl := sanitizeNumber_bounds (chainField r.durations (fun d => d.longBreak)).toNumber
    DEFAULT_SETTINGS.durations.longBreak 60 (60 * 60) (by norm_num [DEFAULT_SETTINGS]) (by norm_num [DEFAULT_SETTINGS])
  have hi := sanitizeNumber_bounds (r.longBreakInterval.getD .jsUndefined).toNumber
    (DEFAULT_SETTINGS.longBreakInterval : ℚ) 0 12 (by norm_num [DEFAULT_SETTINGS]) (by norm_num [DEFAULT_SETTINGS])
  norm_num at hw hs hl
  refine ⟨by norm_num [sanitizeSettings]; exact hw.1, by norm_num [sanitizeSettings]; exact hw.2,
    by norm_num [sanitizeSettings]; exact hs.1, by norm_num [sanitizeSettings]; exact hs.2,
    by norm_num [sanitizeSettings]; exact hl.1, by norm_num [sanitizeSettings]; exact hl.2,
    ?_, ?_, ?_⟩
  · show (0 : ℤ) ≤ ⌊sanitizeNumber _ _ _ _⌋
    exact Int.le_floor.mpr (by exact_mod_cast hi.1)
  · show ⌊sanitizeNumber _ _ _ _⌋ ≤ (12 : ℤ)
    have h12 : ⌊(12 : ℚ)⌋ = (12 : ℤ) := by
      rw [show (12 : ℚ) = ((12 : ℤ) : ℚ) by norm_num, Int.floor_intCast]
    calc ⌊sanitizeNumber (r.longBreakInterval.getD .jsUndefined).toNumber
          (DEFAULT_SETTINGS.longBreakInterval : ℚ) 0 12⌋ ≤ ⌊(12 : ℚ)⌋ := Int.floor_mono hi.2
      _ = 12 := h12
  · show sanitizeSoundType (chainField r.notifications (fun n => n.soundType)) = "beep" ∨
      sanitizeSoundType (chainField r.notifications (fun n => n.soundType)) = "chime" ∨
      sanitizeSoundType (chainField r.notifications (fun n => n.soundType)) = "bell"
    cases chainField r.notifications (fun n => n.soundType) with
    | str s n =>
      show (if s = "beep" ∨ s = "chime" ∨ s = "bell" then s
          else DEFAULT_SETTINGS.notifications.soundType) = "beep" ∨
        (if s = "beep" ∨ s = "chime" ∨ s = "bell" then s
          else DEFAULT_SETTINGS.notifications.soundType) = "chime" ∨
        (if s = "beep" ∨ s = "chime" ∨ s = "bell" then s
          else DEFAULT_SETTINGS.notifications.soundType) = "bell"
      by_cases hm : s = "beep" ∨ s = "chime" ∨ s = "bell"
      · rw [if_pos hm]
        exact hm
      · rw [if_neg hm]
        exact Or.inl rfl
    | jsUndefined => exact Or.inl rfl
    | jsNull => exact Or.inl rfl
    | bool b => exact Or.inl rfl
    | num n => exact Or.inl rfl
    | obj n => exact Or.inl rfl

/-- Sanitizing the raw re-reading of an already sane Settings value is the
identity. -/
theorem sanitizeSettings_toRaw_eq (S : Settings) (h : SaneSettings S) :
    sanitizeSettings S.toRaw = S := by
  obtain ⟨h1, h2, h3, h4, h5, h6, h7, h8, h9⟩ := h
  obtain ⟨⟨w, sb, lb⟩, lbi, ab, aw, ⟨nd, ns, nst⟩, ⟨te⟩⟩ := S
  simp only at h1 h2 h3 h4 h5 h6 h7 h8 h9
  simp only [sanitizeSettings, Settings.toRaw, chainField, Option.getD_some, JSV.toNumber,
    sanitizeSoundType, Settings.mk.injEq, Durations.mk.injEq, Notifications.mk.injEq,
    TickingSound.mk.injEq]
  refine ⟨⟨?_, ?_, ?_⟩, ?_, ?_, ?_, ⟨?_, ?_, ?_⟩, ?_⟩
  · exact sanitizeNumber_fixpoint _ _ _ _ h1 (by linarith)
  · exact sanitizeNumber_fixpoint _ _ _ _ h3 (by linarith)
  · exact sanitizeNumber_fixpoint _ _ _ _ h5 (by linarith)
  · rw [sanitizeNumber_fixpoint _ _ _ _ (by exact_mod_cast h7) (by exact_mod_cast h8),
      Int.floor_intCast]
  · cases ab <;> rfl
  · cases aw <;> rfl
  · cases nd <;> rfl
  · cases ns <;> rfl
  · rw [if_pos h9]
  · cases te <;> rfl

/-- mergeSettings applied to the raw re-reading of a Settings value, with no
legacy durations, reduces to sanitizeSettings of that raw reading. -/
theorem mergeSettings_toRaw (S : Settings) :
    mergeSettings (some S.toRaw) none = sanitizeSettings S.toRaw := rfl

/-- Every output of mergeSettings satisfies the sanity bounds. -/
theorem mergeSettings_sane (saved : Option RawSettings) (legacy : Option RawDurations) :
    SaneSettings (mergeSettings saved legacy) := by
  unfold mergeSettings
  exact sanitizeSettings_sane _

/-- Claim C5: settings sanitization is idempotent. Sanitizing the raw
re-reading of a sanitized value yields the same value, both for the pure
sanitizeSettings function over every raw settings object (including ones with
every field absent or malformed) and for the mergeSettings entry point, which
also accepts an entirely undefined input. -/
theorem sanitize_idempotent :
    (∀ r : RawSettings, sanitizeSettings (sanitizeSettings r).toRaw = sanitizeSettings r) ∧
    (∀ (saved : Option RawSettings) (legacy : Option RawDurations),
      mergeSettings (some (mergeSettings saved legacy).toRaw) none = mergeSettings saved legacy) := by
  constructor
  · intro r
    exact sanitizeSettings_toRaw_eq _ (sanitizeSettings_sane r)
  · intro saved legacy
    rw [mergeSettings_toRaw]
    exact sanitizeSettings_toRaw_eq _ (mergeSettings_sane saved legacy)

/-- Claim C4 counterexample: the sanitizer does not force durations to be
integers. The in-range non-integer input 90.5 seconds for the work duration
is kept unchanged by sanitizeSettings, so the sanitized work duration is not
an integer count of seconds, contrary to the claim. -/
theorem sanitize_duration_noninteger :
    (sanitizeSettings rawWithHalfSecondWork).durations.work = 181 / 2 ∧
    ¬∃ n : ℤ, (sanitizeSettings rawWithHalfSecondWork).durations.work = (n : ℚ) := by
  have hstep : (sanitizeSettings rawWithHalfSecondWork).durations.work =
      sanitizeNumber (.fin (181 / 2)) DEFAULT_SETTINGS.durations.work 60 (60 * 60) := rfl
  have hval : (sanitizeSettings rawWithHalfSecondWork).durations.work = 181 / 2 := by
    rw [hstep, sanitizeNumber_fixpoint _ _ _ _ (by norm_num) (by norm_num)]
  refine ⟨hval, ?_⟩
  rintro ⟨n, hn⟩
  rw [hval] at hn
  have h90 : (90 : ℚ) < (n : ℚ) := by
    rw [← hn]
    norm_num
  have h91 : (n : ℚ) < 91 := by
    rw [← hn]
    norm_num
  have hl : (90 : ℤ) < n := by exact_mod_cast h90
  have hr : n < (91 : ℤ) := by exact_mod_cast h91
  omega

/-- Claim C4 (amended): for every raw input the sanitized durations are
positive values within bounds (work and longBreak in 60..3600, shortBreak in
60..1800); any out-of-range or non-finite duration input is replaced by the
default value for that field, never clamped to the nearest bound; an in-range
finite input is kept unchanged even when it is not an integer, so integrality
is not guaranteed. -/
theorem sanitized_durations_char :
    ∀ r : RawSettings,
      ((sanitizeSettings r).durations.work =
        (match (chainField r.durations (fun d => d.work)).toNumber with
          | .fin q => if 60 ≤ q ∧ q ≤ 3600 then q else DEFAULT_SETTINGS.durations.work
          | _ => DEFAULT_SETTINGS.durations.work)) ∧
      ((sanitizeSettings r).durations.shortBreak =
        (match (chainField r.durations (fun d => d.shortBreak)).toNumber with
          | .fin q => if 60 ≤ q ∧ q ≤ 1800 then q else DEFAULT_SETTINGS.durations.shortBreak
          | _ => DEFAULT_SETTINGS.durations.shortBreak)) ∧
      ((sanitizeSettings r).durations.longBreak =
        (match (chainField r.durations (fun d => d.longBreak)).toNumber with
          | .fin q => if 60 ≤ q ∧ q ≤ 3600 then q else DEFAULT_SETTINGS.durations.longBreak
          | _ => DEFAULT_SETTINGS.durations.longBreak)) ∧
      60 ≤ (sanitizeSettings r).durations.work ∧ (sanitizeSettings r).durations.work ≤ 3600 ∧
      60 ≤ (sanitizeSettings r).durations.shortBreak ∧ (sanitizeSettings r).durations.shortBreak ≤ 1800 ∧
      60 ≤ (sanitizeSettings r).durations.longBreak ∧ (sanitizeSettings r).durations.longBreak ≤ 3600 := by
  intro r
  obtain ⟨b1, b2, b3, b4, b5, b6, _, _, _⟩ := sanitizeSettings_sane r
  refine ⟨?_, ?_, ?_, b1, b2, b3, b4, b5, b6⟩
  · show sanitizeNumber _ _ _ _ = _
    rw [sanitizeNumber_char]
    norm_num
  · show sanitizeNumber _ _ _ _ = _
    rw [sanitizeNumber_char]
    norm_num
  · show sanitizeNumber _ _ _ _ = _
    rw [sanitizeNumber_char]
    norm_num

/-- Claim C10: sanitization maps the notification desktop and sound flags to
true for any value other than the boolean literal false (so 0, null,
undefined, the empty string and missing fields all become true), whereas
autoStartBreaks, autoStartWork and tickingSound.enabled are mapped by
ordinary truthiness, under which 0, null, undefined and the empty string all
become false. -/
theorem sanitize_boolean_asymmetry :
    (∀ r : RawSettings,
      (sanitizeSettings r).notifications.desktop =
        (chainField r.notifications (fun n => n.desktop)).strictNeqFalse ∧
      (sanitizeSettings r).notifications.sound =
        (chainField r.notifications (fun n => n.sound)).strictNeqFalse ∧
      (sanitizeSettings r).autoStartBreaks = (r.autoStartBreaks.getD .jsUndefined).truthy ∧
      (sanitizeSettings r).autoStartWork = (r.autoStartWork.getD .jsUndefined).truthy ∧
      (sanitizeSettings r).tickingSound.enabled =
        (chainField r.tickingSound (fun t => t.enabled)).truthy) ∧
    JSV.strictNeqFalse (.num (.fin 0)) = true ∧
    JSV.strictNeqFalse .jsNull = true ∧
    JSV.strictNeqFalse .jsUndefined = true ∧
    JSV.strictNeqFalse (.str "" (.fin 0)) = true ∧
    JSV.strictNeqFalse (.bool false) = false ∧
    JSV.truthy (.num (.fin 0)) = false ∧
    JSV.truthy .jsNull = false ∧
    JSV.truthy .jsUndefined = false ∧
    JSV.truthy (.str "" (.fin 0)) = false ∧
    JSV.truthy (.bool false) = false ∧
    (sanitizeSettings blankRaw).notifications.desktop = true ∧
    (sanitizeSettings blankRaw).notifications.sound = true ∧
    (sanitizeSettings blankRaw).autoStartBreaks = false ∧
    (sanitizeSettings blankRaw).autoStartWork = false ∧
    (sanitizeSettings blankRaw).tickingSound.enabled = false := by
  exact ⟨fun r => ⟨rfl, rfl, rfl, rfl, rfl⟩, rfl, rfl, rfl, rfl, rfl, rfl, rfl, rfl, rfl,
    rfl, rfl, rfl, rfl, rfl, rfl⟩

/-- The recomputed remaining time is antitone in the current instant. -/
theorem computeRemaining_antitone (i : ℚ) (st tpt : ℤ) {t now : ℤ} (h : t ≤ now) :
    computeRemaining i st tpt now ≤ computeRemaining i st tpt t := by
  unfold computeRemaining
  have hfl : ⌊((t - st - tpt : ℤ) : ℚ) / 1000⌋ ≤ ⌊((now - st - tpt : ℤ) : ℚ) / 1000⌋ := by
    apply Int.floor_mono
    have : ((t - st - tpt : ℤ) : ℚ) ≤ ((now - st - tpt : ℤ) : ℚ) := by
      exact_mod_cast sub_le_sub_right (sub_le_sub_right h st) tpt
    linarith
  have : i - (⌊((now - st - tpt : ℤ) : ℚ) / 1000⌋ : ℤ) ≤
      i - (⌊((t - st - tpt : ℤ) : ℚ) / 1000⌋ : ℤ) := by
    have : ((⌊((t - st - tpt : ℤ) : ℚ) / 1000⌋ : ℤ) : ℚ) ≤
        ((⌊((now - st - tpt : ℤ) : ℚ) / 1000⌋ : ℤ) : ℚ) := by exact_mod_cast hfl
    linarith
  exact max_le_max le_rfl this

/-- Within one second, the recomputed remaining time drops by at most one. -/
theorem computeRemaining_within_one (i : ℚ) (st tpt : ℤ) {t now : ℤ} (h : now ≤ t + 1000) :
    computeRemaining i st tpt t - 1 ≤ computeRemaining i st tpt now := by
  unfold computeRemaining
  have hfl : ⌊((now - st - tpt : ℤ) : ℚ) / 1000⌋ ≤ ⌊((t - st - tpt : ℤ) : ℚ) / 1000⌋ + 1 := by
    have harg : ((now - st - tpt : ℤ) : ℚ) / 1000 ≤ ((t - st - tpt : ℤ) : ℚ) / 1000 + 1 := by
      have hcast : (now : ℚ) ≤ (t : ℚ) + 1000 := by exact_mod_cast h
      have : ((now - st - tpt : ℤ) : ℚ) ≤ ((t - st - tpt : ℤ) : ℚ) + 1000 := by
        push_cast
        linarith
      linarith
    calc ⌊((now - st - tpt : ℤ) : ℚ) / 1000⌋ ≤ ⌊((t - st - tpt : ℤ) : ℚ) / 1000 + 1⌋ :=
        Int.floor_mono harg
      _ = ⌊((t - st - tpt : ℤ) : ℚ) / 1000⌋ + 1 := by
        rw [show (1 : ℚ) = ((1 : ℤ) : ℚ) by norm_num, Int.floor_add_int]
  have hq : ((⌊((now - st - tpt : ℤ) : ℚ) / 1000⌋ : ℤ) : ℚ) ≤
      ((⌊((t - st - tpt : ℤ) : ℚ) / 1000⌋ : ℤ) : ℚ) + 1 := by exact_mod_cast hfl
  rcases le_or_lt (i - (⌊((t - st - tpt : ℤ) : ℚ) / 1000⌋ : ℤ)) 0 with hc | hc
  · have h0 : max 0 (i - (⌊((t - st - tpt : ℤ) : ℚ) / 1000⌋ : ℤ)) = 0 := max_eq_left hc
    rw [h0]
    have : (0 : ℚ) ≤ max 0 (i - (⌊((now - st - tpt : ℤ) : ℚ) / 1000⌋ : ℤ)) := le_max_left 0 _
    linarith
  · have h0 : max 0 (i - (⌊((t - st - tpt : ℤ) : ℚ) / 1000⌋ : ℤ)) =
        i - (⌊((t - st - tpt : ℤ) : ℚ) / 1000⌋ : ℤ) := max_eq_right hc.le
    rw [h0]
    have hb : i - (⌊((t - st - tpt : ℤ) : ℚ) / 1000⌋ : ℤ) - 1 ≤
        i - (⌊((now - st - tpt : ℤ) : ℚ) / 1000⌋ : ℤ) := by linarith
    have : i - (⌊((now - st - tpt : ℤ) : ℚ) / 1000⌋ : ℤ) ≤
        max 0 (i - (⌊((now - st - tpt : ℤ) : ℚ) / 1000⌋ : ℤ)) := le_max_right 0 _
    linarith

/-- Claim C1: at every point where the Authority recomputes remaining time
(the tick callback, pauseTimer, and the reload of a running state) while
isRunning and not isPaused, the computed timeRemaining equals
max(0, initialDuration - floor((now - startTime - totalPausedTime) / 1000)).
The tick and reload conjuncts cover every state whose stored timeRemaining is
arbitrary, so the recomputation is independent of how many ticks were missed:
remaining time is recomputed from absolute timestamps, never decremented. -/
theorem elapsed_time_law (settings : Settings) (current s : TimerState) (st now : ℤ)
    (today : String) (history : SessionHistory)
    (hrun : s.isRunning = true) (hpause : s.isPaused = false)
    (hst : s.startTime = some st) (hstz : st ≠ 0) (hinit : s.initialDuration ≠ 0)
    (hnow : st ≤ now) :
    computeRemaining s.initialDuration st s.totalPausedTime now =
      max 0 (s.initialDuration - (⌊((now - st - s.totalPausedTime : ℤ) : ℚ) / 1000⌋ : ℤ)) ∧
    (pauseTimer s now).timeRemaining = computeRemaining s.initialDuration st s.totalPausedTime now ∧
    (0 < computeRemaining s.initialDuration st s.totalPausedTime now →
      (tickStep settings s now today history).1.timeRemaining =
        computeRemaining s.initialDuration st s.totalPausedTime now) ∧
    (0 < computeRemaining s.initialDuration st s.totalPausedTime now →
      (loadState settings current (some s) now today history).1.timeRemaining =
        computeRemaining s.initialDuration st s.totalPausedTime now) := by
  have hguard : ¬(¬s.isRunning = true ∨ s.isPaused = true) := by
    rw [hrun, hpause]
    simp
  have htruthy : optIntTruthy s.startTime = true := by
    rw [hst]
    simpa [optIntTruthy] using hstz
  have hgetD : s.startTime.getD 0 = st := by rw [hst]; rfl
  refine ⟨rfl, ?_, ?_, ?_⟩
  · unfold pauseTimer
    rw [if_neg (by simpa using hguard)]
    rw [if_pos (by exact ⟨htruthy, hinit⟩)]
    simp [hgetD]
  · intro hpos
    unfold tickStep
    rw [if_neg (by simpa using hguard)]
    simp only [hgetD]
    by_cases hch : s.timeRemaining ≠ computeRemaining s.initialDuration st s.totalPausedTime now
    · rw [if_pos hch, if_neg (not_le.mpr hpos)]
    · rw [if_neg hch]
      exact not_not.mp hch
  · intro hpos
    simp only [loadState]
    rw [if_pos (show s.isRunning = true ∧ ¬s.isPaused = true ∧ optIntTruthy s.startTime = true
      from ⟨hrun, by simp [hpause], htruthy⟩)]
    simp only [hgetD]
    rw [if_neg (not_le.mpr hpos)]

/-- Witness for claim C1: a running state started at t = 1000 ms, recomputed
at t = 5000 ms, both on pause and on a tick. -/
theorem elapsed_time_law_witness :
    (pauseTimer runningSample 5000).timeRemaining =
      computeRemaining runningSample.initialDuration 1000 runningSample.totalPausedTime 5000 ∧
    (tickStep DEFAULT_SETTINGS runningSample 5000 dayKey sampleHistory).1.timeRemaining =
      computeRemaining runningSample.initialDuration 1000 runningSample.totalPausedTime 5000 :=
  ⟨(elapsed_time_law DEFAULT_SETTINGS initialTimerState runningSample 1000 5000 dayKey
      sampleHistory rfl rfl rfl (by norm_num) (by norm_num [runningSample, initialTimerState])
      (by norm_num)).2.1,
   (elapsed_time_law DEFAULT_SETTINGS initialTimerState runningSample 1000 5000 dayKey
      sampleHistory rfl rfl rfl (by norm_num) (by norm_num [runningSample, initialTimerState])
      (by norm_num)).2.2.1
    (by
      have h4 : ((5000 - 1000 - runningSample.totalPausedTime : ℤ) : ℚ) / 1000 =
          ((4 : ℤ) : ℚ) := by
        norm_num [runningSample, initialTimerState]
      unfold computeRemaining
      rw [h4, Int.floor_intCast]
      refine lt_max_of_lt_right ?_
      norm_num [runningSample, initialTimerState])⟩

/-- Claim C7: pausing and then immediately resuming leaves initialDuration,
startTime and isRunning exactly unchanged, changes timeRemaining by at most
one second of rounding (exactly no change when the pause happens at the
instant the stored timeRemaining was last recomputed), adds now - pausedAt to
totalPausedTime and clears pausedAt. -/
theorem pause_resume_conservation (settings : Settings) (s : TimerState) (st t now rnow : ℤ)
    (hrun : s.isRunning = true) (hpause : s.isPaused = false)
    (hst : s.startTime = some st) (hstz : st ≠ 0) (hinit : s.initialDuration ≠ 0)
    (hlaw : s.timeRemaining = computeRemaining s.initialDuration st s.totalPausedTime t)
    (h1 : t ≤ now) (h2 : now ≤ t + 1000) :
    (startTimer settings (pauseTimer s now) rnow).initialDuration = s.initialDuration ∧
    (startTimer settings (pauseTimer s now) rnow).startTime = s.startTime ∧
    (startTimer settings (pauseTimer s now) rnow).isRunning = s.isRunning ∧
    (startTimer settings (pauseTimer s now) rnow).isPaused = false ∧
    (startTimer settings (pauseTimer s now) rnow).totalPausedTime =
      s.totalPausedTime + (rnow - now) ∧
    (startTimer settings (pauseTimer s now) rnow).pausedAt = none ∧
    s.timeRemaining - 1 ≤ (startTimer settings (pauseTimer s now) rnow).timeRemaining ∧
    (startTimer settings (pauseTimer s now) rnow).timeRemaining ≤ s.timeRemaining := by
  have hguard : ¬(¬s.isRunning = true ∨ s.isPaused = true) := by
    rw [hrun, hpause]
    simp
  have htruthy : optIntTruthy s.startTime = true := by
    rw [hst]
    simpa [optIntTruthy] using hstz
  have hgetD : s.startTime.getD 0 = st := by rw [hst]; rfl
  have hp : pauseTimer s now =
      { s with
          timeRemaining := computeRemaining s.initialDuration st s.totalPausedTime now,
          isPaused := true,
          pausedAt := some now,
          tickInterval := false } := by
    unfold pauseTimer
    rw [if_neg (by simpa using hguard)]
    rw [if_pos (by exact ⟨htruthy, hinit⟩)]
    simp [hgetD]
  have hres : startTimer settings (pauseTimer s now) rnow =
      { s with
          timeRemaining := computeRemaining s.initialDuration st s.totalPausedTime now,
          isPaused := false,
          pausedAt := none,
          tickInterval := true,
          totalPausedTime := s.totalPausedTime + (rnow - now) } := by
    rw [hp]
    unfold startTimer
    rw [if_neg (by simp), if_pos (by simp)]
    simp
  rw [hres, hlaw]
  refine ⟨rfl, rfl, rfl, rfl, rfl, rfl, ?_, ?_⟩
  · exact computeRemaining_within_one s.initialDuration st s.totalPausedTime h2
  · exact computeRemaining_antitone s.initialDuration st s.totalPausedTime h1

/-- Witness for claim C7: the running sample paused at t = 5000 ms and
resumed at t = 5600 ms conserves initialDuration, startTime and (within one
second) timeRemaining; here the stored timeRemaining satisfies the
elapsed-time law at t = 1000 ms. -/
theorem pause_resume_conservation_witness :
    (startTimer DEFAULT_SETTINGS (pauseTimer runningSample 1400) 5600).initialDuration =
      runningSample.initialDuration ∧
    (startTimer DEFAULT_SETTINGS (pauseTimer runningSample 1400) 5600).startTime =
      runningSample.startTime ∧
    (startTimer DEFAULT_SETTINGS (pauseTimer runningSample 1400) 5600).totalPausedTime =
      runningSample.totalPausedTime + (5600 - 1400) :=
  let h := pause_resume_conservation DEFAULT_SETTINGS runningSample 1000 1000 1400 5600
    rfl rfl rfl (by norm_num) (by norm_num [runningSample, initialTimerState])
    (by
      show runningSample.timeRemaining =
        computeRemaining runningSample.initialDuration 1000 runningSample.totalPausedTime 1000
      unfold computeRemaining runningSample initialTimerState
      norm_num)
    (by norm_num) (by norm_num)
  ⟨h.1, h.2.1, h.2.2.2.2.1⟩

/-- Characterization of the session chosen by handleTimerComplete, read off
the definition. -/
theorem handleTimerComplete_session_char (settings : Settings) (s : TimerState) (now : ℤ)
    (today : String) (history : SessionHistory) :
    (handleTimerComplete settings s now today history).1.currentSession =
      (if s.currentSession = .work then
        (if settings.longBreakInterval > 0 ∧
            ((if s.currentSession = .work then s.cycleCount + 1 else s.cycleCount : ℕ) : ℤ) %
              settings.longBreakInterval = 0 then Session.longBreak else Session.shortBreak)
      else Session.work) := rfl

/-- After a completion that ends a work session, the next session is a break,
never work. -/
theorem handleTimerComplete_work_to_break (settings : Settings) (s : TimerState) (now : ℤ)
    (today : String) (history : SessionHistory) (hwork : s.currentSession = .work) :
    (handleTimerComplete settings s now today history).1.currentSession ≠ .work := by
  rw [handleTimerComplete_session_char, if_pos hwork]
  intro hcontr
  rw [if_pos hwork] at hcontr
  by_cases hc : settings.longBreakInterval > 0 ∧
      ((s.cycleCount + 1 : ℕ) : ℤ) % settings.longBreakInterval = 0
  · rw [if_pos hc] at hcontr
    exact Session.noConfusion hcontr
  · rw [if_neg hc] at hcontr
    exact Session.noConfusion hcontr

/-- Completing a work session increments cycleCount and today's history count
by exactly one; completing a break leaves both untouched. -/
theorem handleTimerComplete_counts (settings : Settings) (s : TimerState) (now : ℤ)
    (today : String) (history : SessionHistory) :
    (handleTimerComplete settings s now today history).1.cycleCount =
      (if s.currentSession = .work then s.cycleCount + 1 else s.cycleCount) ∧
    (handleTimerComplete settings s now today history).2 today =
      (if s.currentSession = .work then history today + 1 else history today) := by
  unfold handleTimerComplete
  by_cases hw : s.currentSession = .work
  · simp [hw, updateSessionHistory]
  · simp [hw]

/-- Claim C3: for every state in a work session, invoking the completion
handler twice in immediate succession increments cycleCount exactly once and
appends exactly one increment to today's SessionHistory, never two; the second
invocation finds the session already transitioned to a break and leaves both
counters alone. -/
theorem completion_double_counts (settings : Settings) (s : TimerState) (now rnow : ℤ)
    (today : String) (history : SessionHistory) (hwork : s.currentSession = .work) :
    (handleTimerComplete settings (handleTimerComplete settings s now today history).1 rnow today
      (handleTimerComplete settings s now today history).2).1.cycleCount = s.cycleCount + 1 ∧
    (handleTimerComplete settings (handleTimerComplete settings s now today history).1 rnow today
      (handleTimerComplete settings s now today history).2).2 today = history today + 1 := by
  have hbreak := handleTimerComplete_work_to_break settings s now today history hwork
  have h1 := handleTimerComplete_counts settings s now today history
  have h2 := handleTimerComplete_counts settings
    (handleTimerComplete settings s now today history).1 rnow today
    (handleTimerComplete settings s now today history).2
  simp only [if_pos hwork] at h1
  simp only [if_neg hbreak] at h2
  constructor
  · rw [h2.1, h1.1]
  · rw [h2.2, h1.2]

/-- Witness for claim C3: completing the initial work session twice under
default settings yields cycleCount 1, not 2. -/
theorem completion_double_counts_witness :
    (handleTimerComplete DEFAULT_SETTINGS
      (handleTimerComplete DEFAULT_SETTINGS initialTimerState 0 dayKey sampleHistory).1 0 dayKey
      (handleTimerComplete DEFAULT_SETTINGS initialTimerState 0 dayKey sampleHistory).2).1.cycleCount =
      initialTimerState.cycleCount + 1 :=
  (completion_double_counts DEFAULT_SETTINGS initialTimerState 0 0 dayKey sampleHistory rfl).1

/-- Claim C2, refuted on the code: handleTimerComplete has no guard detecting
that the session has already transitioned, so a second invocation (for
example the deadline alarm firing after the tick already handled completion)
is not a no-op. After the first completion of the initial work session under
default settings the state sits idle in shortBreak with 300 seconds
remaining; invoking the handler again transitions it straight to work with
1500 seconds remaining. The spec requires the second trigger to leave the
TimerState unchanged. -/
theorem completion_second_trigger_not_noop :
    afterFirstCompletion.1.currentSession = Session.shortBreak ∧
    afterFirstCompletion.1.isRunning = false ∧
    (handleTimerComplete DEFAULT_SETTINGS afterFirstCompletion.1 0 dayKey
      afterFirstCompletion.2).1.currentSession = Session.work ∧
    (handleTimerComplete DEFAULT_SETTINGS afterFirstCompletion.1 0 dayKey
      afterFirstCompletion.2).1.timeRemaining ≠ afterFirstCompletion.1.timeRemaining := by
  refine ⟨rfl, rfl, rfl, ?_⟩
  intro hcontr
  have h1 : (handleTimerComplete DEFAULT_SETTINGS afterFirstCompletion.1 0 dayKey
      afterFirstCompletion.2).1.timeRemaining = DEFAULT_SETTINGS.durations.work := rfl
  have h2 : afterFirstCompletion.1.timeRemaining = DEFAULT_SETTINGS.durations.shortBreak := rfl
  rw [h1, h2] at hcontr
  norm_num [DEFAULT_SETTINGS] at hcontr

/-- Claim C6: starting from cycleCount 0 with longBreakInterval 4, the first
three work-session completions transition to shortBreak and the fourth to
longBreak; completing any break always transitions to work; and with
longBreakInterval 0 no completion ever transitions to longBreak. In the
concrete trace under default settings, completion n = 1, 3, 5 ends work
sessions 1, 2, 3 and completion 7 ends work session 4; the even completions
end the intervening breaks. -/
theorem cycle_substitution :
    ((sessionAfter 1).currentSession = Session.shortBreak ∧ (sessionAfter 1).cycleCount = 1 ∧
     (sessionAfter 2).currentSession = Session.work ∧
     (sessionAfter 3).currentSession = Session.shortBreak ∧ (sessionAfter 3).cycleCount = 2 ∧
     (sessionAfter 4).currentSession = Session.work ∧
     (sessionAfter 5).currentSession = Session.shortBreak ∧ (sessionAfter 5).cycleCount = 3 ∧
     (sessionAfter 6).currentSession = Session.work ∧
     (sessionAfter 7).currentSession = Session.longBreak ∧ (sessionAfter 7).cycleCount = 4) ∧
    (∀ (settings : Settings) (s : TimerState) (now : ℤ) (today : String)
      (history : SessionHistory), s.currentSession ≠ .work →
      (handleTimerComplete settings s now today history).1.currentSession = .work) ∧
    (∀ (s : TimerState) (now : ℤ) (today : String) (history : SessionHistory),
      (handleTimerComplete zeroIntervalSettings s now today history).1.currentSession ≠
        .longBreak) := by
  refine ⟨⟨rfl, rfl, rfl, rfl, rfl, rfl, rfl, rfl, rfl, rfl, rfl⟩, ?_, ?_⟩
  · intro settings s now today history hbreak
    rw [handleTimerComplete_session_char, if_neg hbreak]
  · intro s now today history
    rw [handleTimerComplete_session_char]
    by_cases hw : s.currentSession = .work
    · rw [if_pos hw]
      intro hcontr
      rw [if_pos hw] at hcontr
      by_cases hc : zeroIntervalSettings.longBreakInterval > 0 ∧
          ((s.cycleCount + 1 : ℕ) : ℤ) % zeroIntervalSettings.longBreakInterval = 0
      · exact absurd hc.1 (by decide)
      · rw [if_neg hc] at hcontr
        exact Session.noConfusion hcontr
    · rw [if_neg hw]
      decide

/-- Witness for claim C6: completing the first shortBreak returns to work, and
with the interval disabled the first work completion is a shortBreak. -/
theorem cycle_substitution_witness :
    (handleTimerComplete DEFAULT_SETTINGS (sessionAfter 1) 0 dayKey
      sampleHistory).1.currentSession = Session.work :=
  cycle_substitution.2.1 DEFAULT_SETTINGS (sessionAfter 1) 0 dayKey sampleHistory
    (by
      intro hcontr
      have hshort : (sessionAfter 1).currentSession = Session.shortBreak := rfl
      rw [hshort] at hcontr
      exact Session.noConfusion hcontr)

/-- The valid-pair invariant: a paused timer is always running. -/
def TimerInv (s : TimerState) : Prop := s.isPaused = true → s.isRunning = true

/-- startTimer preserves the valid-pair invariant. -/
theorem timerInv_startTimer (settings : Settings) (s : TimerState) (now : ℤ)
    (h : TimerInv s) : TimerInv (startTimer settings s now) := by
  unfold startTimer
  by_cases h1 : s.isRunning = true ∧ ¬s.isPaused = true
  · rw [if_pos h1]
    exact h
  · rw [if_neg h1]
    by_cases h2 : s.isPaused = true
    · rw [if_pos h2]
      intro hcontr
      exact absurd hcontr (by simp)
    · rw [if_neg h2]
      intro _
      rfl

/-- pauseTimer preserves the valid-pair invariant: it only sets isPaused when
the timer is running, and leaves isRunning untouched. -/
theorem timerInv_pauseTimer (s : TimerState) (now : ℤ) (h : TimerInv s) :
    TimerInv (pauseTimer s now) := by
  unfold pauseTimer
  by_cases h1 : ¬s.isRunning = true ∨ s.isPaused = true
  · rw [if_pos h1]
    exact h
  · rw [if_neg h1]
    push_neg at h1
    by_cases h2 : optIntTruthy s.startTime = true ∧ s.initialDuration ≠ 0
    · rw [if_pos h2]
      intro _
      exact h1.1
    · rw [if_neg h2]
      intro _
      exact h1.1

/-- resetTimer establishes the valid-pair invariant outright. -/
theorem timerInv_resetTimer (settings : Settings) (s : TimerState) :
    TimerInv (resetTimer settings s) := by
  intro hcontr
  exact absurd hcontr (by simp [resetTimer])

/-- handleTimerComplete establishes the valid-pair invariant outright: the
resulting state is never paused. -/
theorem timerInv_handleTimerComplete (settings : Settings) (s : TimerState) (now : ℤ)
    (today : String) (history : SessionHistory) :
    TimerInv (handleTimerComplete settings s now today history).1 := by
  intro hcontr
  exact absurd hcontr (by simp [handleTimerComplete])

/-- A tick firing preserves the valid-pair invariant. -/
theorem timerInv_tickStep (settings : Settings) (s : TimerState) (now : ℤ)
    (today : String) (history : SessionHistory) (h : TimerInv s) :
    TimerInv (tickStep settings s now today history).1 := by
  unfold tickStep
  by_cases h1 : ¬s.isRunning = true ∨ s.isPaused = true
  · rw [if_pos h1]
    intro hp
    exact h hp
  · rw [if_neg h1]
    push_neg at h1
    by_cases h2 : s.timeRemaining ≠ computeRemaining s.initialDuration (s.startTime.getD 0)
        s.totalPausedTime now
    · rw [if_pos h2]
      by_cases h3 : computeRemaining s.initialDuration (s.startTime.getD 0)
          s.totalPausedTime now ≤ 0
      · rw [if_pos h3]
        exact timerInv_handleTimerComplete settings _ now today history
      · rw [if_neg h3]
        intro _
        exact h1.1
    · rw [if_neg h2]
      exact h

/-- loadState preserves the valid-pair invariant when both the in-memory
state and the stored snapshot satisfy it. -/
theorem timerInv_loadState (settings : Settings) (current : TimerState)
    (stored : Option TimerState) (now : ℤ) (today : String) (history : SessionHistory)
    (hc : TimerInv current) (hs : ∀ ts, stored = some ts → TimerInv ts) :
    TimerInv (loadState settings current stored now today history).1 := by
  match stored with
  | none =>
    simp only [loadState]
    intro hp
    exact hc hp
  | some ts =>
    have hts : TimerInv ts := hs ts rfl
    simp only [loadState]
    by_cases h1 : ts.isRunning = true ∧ ¬ts.isPaused = true ∧ optIntTruthy ts.startTime = true
    · rw [if_pos h1]
      by_cases h2 : computeRemaining ts.initialDuration (ts.startTime.getD 0)
          ts.totalPausedTime now ≤ 0
      · rw [if_pos h2]
        exact timerInv_handleTimerComplete settings _ now today history
      · rw [if_neg h2]
        intro _
        exact h1.1
    · rw [if_neg h1]
      by_cases h3 : ¬ts.isRunning = true ∧ ¬ts.isPaused = true
      · rw [if_pos h3]
        by_cases h4 : ts.timeRemaining ≠ getSessionDuration settings ts.currentSession
        · rw [if_pos h4]
          intro hp
          exact hts hp
        · rw [if_neg h4]
          exact hts
      · rw [if_neg h3]
        exact hts

/-- The updateSettings message preserves the valid-pair invariant: it never
touches the running flags. -/
theorem timerInv_updateSettingsMsg (requestSettings : Option RawSettings) (s : TimerState)
    (h : TimerInv s) : TimerInv (updateSettingsMsg requestSettings s).2 := by
  unfold updateSettingsMsg
  by_cases h1 : ¬s.isRunning = true ∧ ¬s.isPaused = true
  · rw [if_pos h1]
    intro hp
    exact h hp
  · rw [if_neg h1]
    exact h

/-- Every reachable state satisfies the valid-pair invariant. -/
theorem reachable_timerInv (s : TimerState) (h : Reachable s) : TimerInv s := by
  induction h with
  | init => intro hcontr; exact absurd hcontr (by simp [initialTimerState])
  | start settings s now _ ih => exact timerInv_startTimer settings s now ih
  | pause s now _ ih => exact timerInv_pauseTimer s now ih
  | reset settings s _ => exact timerInv_resetTimer settings s
  | complete settings s now today history _ =>
    exact timerInv_handleTimerComplete settings s now today history
  | tick settings s now today history _ ih =>
    exact timerInv_tickStep settings s now today history ih
  | update requestSettings s _ ih => exact timerInv_updateSettingsMsg requestSettings s ih
  | loadNone settings s now today history _ ih =>
    exact timerInv_loadState settings s none now today history ih (fun ts hts => by
      exact absurd hts (by simp))
  | loadSome settings s stored now today history _ _ ih ihstored =>
    exact timerInv_loadState settings s (some stored) now today history ih (fun ts hts => by
      injection hts with hts
      rw [← hts]
      exact ihstored)

/-- Claim C8: in every state reachable from the initial TimerState by any
sequence of the Authority's operations (start, pause, reset, skip, tick,
completion, settings update, and reload of self-written state), the invalid
combination isRunning = false with isPaused = true never occurs. -/
theorem reachable_no_invalid_pair (s : TimerState) (h : Reachable s) :
    ¬(s.isRunning = false ∧ s.isPaused = true) := by
  rintro ⟨h1, h2⟩
  have := reachable_timerInv s h h2
  rw [h1] at this
  exact Bool.noConfusion this

/-- Witness for claim C8: the initial state, and the state after pausing a
started timer, are reachable and never exhibit the invalid pair. -/
theorem reachable_no_invalid_pair_witness :
    ¬(initialTimerState.isRunning = false ∧ initialTimerState.isPaused = true) ∧
    ¬((pauseTimer (startTimer DEFAULT_SETTINGS initialTimerState 1000) 2000).isRunning = false ∧
      (pauseTimer (startTimer DEFAULT_SETTINGS initialTimerState 1000) 2000).isPaused = true) :=
  ⟨reachable_no_invalid_pair initialTimerState Reachable.init,
   reachable_no_invalid_pair _
    (Reachable.pause _ 2000 (Reachable.start DEFAULT_SETTINGS initialTimerState 1000
      Reachable.init))⟩

/-- Claim C9: while the timer is mid-session (isRunning true, paused or not),
processing an updateSettings command leaves the entire TimerState unchanged,
in particular the running session's initialDuration and timeRemaining; the
new durations take effect for sessions started afterwards, whose
initialDuration is resolved from the updated settings. -/
theorem update_settings_frame (requestSettings : Option RawSettings) (s : TimerState)
    (hrun : s.isRunning = true) :
    (updateSettingsMsg requestSettings s).2 = s ∧
    (∀ (s2 : TimerState) (now : ℤ), s2.isRunning = false → s2.isPaused = false →
      (startTimer (updateSettingsMsg requestSettings s).1 s2 now).initialDuration =
        getSessionDuration (updateSettingsMsg requestSettings s).1 s2.currentSession ∧
      (startTimer (updateSettingsMsg requestSettings s).1 s2 now).timeRemaining =
        getSessionDuration (updateSettingsMsg requestSettings s).1 s2.currentSession) := by
  constructor
  · unfold updateSettingsMsg
    rw [if_neg (by rw [hrun]; simp)]
  · intro s2 now h2run h2pause
    unfold startTimer
    rw [if_neg (by rw [h2run]; simp), if_neg (by rw [h2pause]; simp)]
    exact ⟨rfl, rfl⟩

/-- Witness for claim C9: updating settings while the running sample is
mid-session leaves the state untouched, and a subsequent fresh start resolves
its duration from the updated settings. -/
theorem update_settings_frame_witness :
    (updateSettingsMsg (some blankRaw) runningSample).2 = runningSample ∧
    (startTimer (updateSettingsMsg (some blankRaw) runningSample).1 initialTimerState
        3000).initialDuration =
      getSessionDuration (updateSettingsMsg (some blankRaw) runningSample).1
        initialTimerState.currentSession :=
  ⟨(update_settings_frame (some blankRaw) runningSample rfl).1,
   ((update_settings_frame (some blankRaw) runningSample rfl).2 initialTimerState 3000
      rfl rfl).1⟩

end Tickly
